import Mathlib

/-!
Verification of the `option` Go package (a generic Option container with
an absence diagnostic). Shallow embedding: the `Option[T]` struct becomes
`option.Opt α`, Go `error` values become `Option String`, and the
reflection-based nil classification is modelled through a `GoType` class
recording, for each Go static type, its zero value and what
`reflect.ValueOf` observes on a value of that type.
-/

namespace option

/-- Go `error` values: `Option.none` is the nil error, `Option.some msg`
models `errors.New(msg)` (diagnostics are compared by message). -/
abbrev GoErr := Option String

/-- From src/option.go: `ErrNilValue = errors.New("option: value cannot be nil")`. -/
def ErrNilValue : GoErr := some "option: value cannot be nil"

/-- Runtime categories (`reflect.Kind`) relevant to the library: the
nil-capable kinds named in the switch of `isNil`, the `Invalid` kind that
`reflect.ValueOf` yields on a nil interface, and the value categories
(numeric, text, boolean, fixed-layout record) used by callers. -/
inductive RKind where
  | invalid
  | chanK
  | funcK
  | mapK
  | ptrK
  | unsafePointerK
  | interfaceK
  | sliceK
  | intK
  | stringK
  | boolK
  | structK
deriving DecidableEq, BEq

/-- Model of a `reflect.Value` as observed by `isNil`: its `Kind()` and,
for nil-capable kinds, the result of `IsNil()` (the flag is meaningless —
never consulted — for other kinds, where Go `IsNil` would panic). -/
structure RVal where
  kind : RKind
  isNilR : Bool
deriving DecidableEq

/-- A Go static type as the library sees it: its zero value (used by the
struct literals `Option[T]{none: true, ...}`, which zero-initialize the
value field) and the `reflect.Value` that `reflect.ValueOf` returns for a
value of this type. Per Go reflection semantics `ValueOf` receives the
value converted to `any` and unwraps to the dynamic value, so a nil
interface value reflects as the invalid `reflect.Value` and a non-nil
interface reflects as its concrete payload. -/
class GoType (α : Type) where
  zero : α
  valueOf : α → RVal

/-- From src/option.go `isNil`: take `reflect.ValueOf(value)`, switch on
its kind; for Chan, Func, Map, Ptr, UnsafePointer, Interface and Slice
return `v.IsNil()`, default to false. -/
def isNil [GoType α] (value : α) : Bool :=
  let v := GoType.valueOf value
  match v.kind with
  | .chanK | .funcK | .mapK | .ptrK | .unsafePointerK | .interfaceK | .sliceK =>
      v.isNilR
  | _ => false

/-- The `Option[T]` struct of src/option.go. Field names are the source's
`none`, `some`, `err`, spelled `non`, `som`, `err` to avoid clashing with
the constructors of Lean's core `Option`. -/
structure Opt (α : Type) where
  non : Bool
  som : α
  err : GoErr
deriving DecidableEq

/-- From src/option.go `Some`: if `isNil(value)` return
`Option[T]{none: true, err: ErrNilValue}` (value field zero-initialized),
else `Option[T]{some: value}` (none and err zero-initialized). -/
def Some [GoType α] (value : α) : Opt α :=
  if isNil value then { non := true, som := GoType.zero, err := ErrNilValue }
  else { non := false, som := value, err := none }

/-- From src/option.go `None`: `Option[T]{none: true, err: err}` (value
field zero-initialized). -/
def None (α : Type) [GoType α] (err : GoErr) : Opt α :=
  { non := true, som := GoType.zero, err := err }

/-- From src/option.go `IsSome`: `!o.none`. -/
def IsSome (o : Opt α) : Bool := !o.non

/-- From src/option.go `IsNone`: `o.none`. -/
def IsNone (o : Opt α) : Bool := o.non

/-- From src/option.go `Error`: returns `o.err` when `o.none`, else nil. -/
def Error (o : Opt α) : GoErr :=
  if o.non then o.err else none

/-- From src/option.go `Unwrap`: panics when `o.none` (modelled as
`Except.error` carrying the panic message), else returns `o.some`. -/
def Unwrap (o : Opt α) : Except String α :=
  if o.non then .error "`Unwrap` called on `None` value" else .ok o.som

/-- From src/option.go `UnwrapOr`: returns `def` when `o.none`, else `o.some`. -/
def UnwrapOr (o : Opt α) (d : α) : α :=
  if o.non then d else o.som

/-- From src/option.go `UnwrapOrElse`: returns `f()` when `o.none`, else `o.some`. -/
def UnwrapOrElse (o : Opt α) (f : Unit → α) : α :=
  if o.non then f () else o.som

/-- Instrumented form of `UnwrapOrElse`, same branch structure as the
source, additionally reporting how many times `f` is invoked. -/
def UnwrapOrElseCounted (o : Opt α) (f : Unit → α) : α × Nat :=
  if o.non then (f (), 1) else (o.som, 0)

/-- From src/option.go `Filter`: when `o.none || !predicate(o.some)`,
build `err` (the original `o.err` when none, else a fresh
`errors.New("option: value did not satisfy predicate")`) and return
`None[T](err)`; otherwise return `o` unchanged. -/
def Filter [GoType α] (o : Opt α) (predicate : α → Bool) : Opt α :=
  if o.non || !predicate o.som then
    None α (if o.non then o.err else some "option: value did not satisfy predicate")
  else o

/-- From src/option.go `Map`: `None[U](o.err)` when `o.none`, else
`Some(f(o.some))` — the result is re-classified through `Some`. -/
def Map [GoType α] [GoType β] (o : Opt α) (f : α → β) : Opt β :=
  if o.non then None β o.err else Some (f o.som)

/-- From src/option.go `FlatMap`: `None[U](o.err)` when `o.none`, else
`f(o.some)` returned verbatim. -/
def FlatMap [GoType α] [GoType β] (o : Opt α) (f : α → Opt β) : Opt β :=
  if o.non then None β o.err else f o.som

/-- Instrumented form of `FlatMap`, same branch structure as the source,
additionally reporting how many times `f` is invoked. -/
def FlatMapCounted [GoType α] [GoType β] (o : Opt α) (f : α → Opt β) : Opt β × Nat :=
  if o.non then (None β o.err, 0) else (f o.som, 1)

/-! Concrete Go types instantiating the model. -/

instance : GoType Int := ⟨0, fun _ => ⟨.intK, false⟩⟩

instance : GoType String := ⟨"", fun _ => ⟨.stringK, false⟩⟩

instance : GoType Bool := ⟨false, fun _ => ⟨.boolK, false⟩⟩

/-- The nil-capable handle categories: channel, callable, associative
container, pointer, unsafe pointer, sequence. -/
inductive HKind where
  | hchan
  | hfunc
  | hmap
  | hptr
  | huptr
  | hslice
deriving DecidableEq

/-- The `reflect.Kind` of each handle category. -/
def HKind.rkind : HKind → RKind
  | .hchan => .chanK
  | .hfunc => .funcK
  | .hmap => .mapK
  | .hptr => .ptrK
  | .huptr => .unsafePointerK
  | .hslice => .sliceK

/-- A value of a nil-capable Go handle type of category `k` (e.g. a
pointer, func, map, slice or chan type): either the nil zero form or a
live handle identified by an id. Reflection sees the category's kind and
`IsNil` is true exactly on the nil form. -/
inductive Handle (k : HKind) where
  | nilH
  | live (id : Nat)
deriving DecidableEq

instance {k : HKind} : GoType (Handle k) :=
  ⟨Handle.nilH, fun h =>
    ⟨k.rkind, match h with | .nilH => true | .live _ => false⟩⟩

/-- A fixed-layout Go record passed by value (no nil-capable zero form). -/
structure GoStruct where
  a : Int
  b : String
deriving DecidableEq

instance : GoType GoStruct := ⟨⟨0, ""⟩, fun _ => ⟨.structK, false⟩⟩

/-- A value of a Go interface (dynamic wrapper) type: nil, or wrapping a
concrete dynamic value (a handle, a number, text, a boolean or a record —
the dynamic type of a non-nil interface is always concrete, never itself
an interface). `reflect.ValueOf` on a nil interface yields the invalid
`reflect.Value`; on a non-nil interface it yields the reflect value of
the payload. -/
inductive GoIface where
  | nilI
  | wrapHandle (k : HKind) (h : Handle k)
  | wrapInt (n : Int)
  | wrapStr (s : String)
  | wrapBool (b : Bool)
  | wrapStruct (r : GoStruct)
deriving DecidableEq

instance : GoType GoIface :=
  ⟨GoIface.nilI, fun i =>
    match i with
    | .nilI => ⟨.invalid, false⟩
    | .wrapHandle _ h => GoType.valueOf h
    | .wrapInt n => GoType.valueOf n
    | .wrapStr s => GoType.valueOf s
    | .wrapBool b => GoType.valueOf b
    | .wrapStruct r => GoType.valueOf r⟩

/-! Theorems settling the claims. -/

/-- C1 (counterexample): the claim says the nil dynamic wrapper (nil
interface value) is classified absent by `Some`; in fact `reflect.ValueOf`
on a nil interface yields the invalid kind, `isNil` falls through to its
default branch, and `Some` produces a present Option with a nil error. -/
theorem some_nil_iface_not_absent :
    IsNone (Some GoIface.nilI) = false ∧ IsSome (Some GoIface.nilI) = true ∧
    Error (Some GoIface.nilI) ≠ ErrNilValue := by
  refine ⟨rfl, rfl, by decide⟩

/-- C1 (amended): `Some` classifies its input: on the canonical nil zero
form of each nil-capable handle category (pointer, callable, associative,
sequence, channel, unsafe pointer) — directly or wrapped in a dynamic
wrapper — it yields an absent Option whose diagnostic is the fixed
"option: value cannot be nil" error; on every value of a category with no
nil-capable zero form (numbers, text, booleans, fixed-layout records),
and on the nil dynamic wrapper itself, it yields a present Option whose
`Unwrap` returns the value. -/
theorem some_classification :
    (∀ k : HKind, IsNone (Some (Handle.nilH : Handle k)) = true ∧
      Error (Some (Handle.nilH : Handle k)) = ErrNilValue) ∧
    (∀ k : HKind, IsNone (Some (GoIface.wrapHandle k Handle.nilH)) = true ∧
      Error (Some (GoIface.wrapHandle k Handle.nilH)) = ErrNilValue) ∧
    (IsSome (Some GoIface.nilI) = true ∧
      Unwrap (Some GoIface.nilI) = .ok GoIface.nilI) ∧
    (∀ n : Int, IsSome (Some n) = true ∧ Unwrap (Some n) = .ok n) ∧
    (∀ s : String, IsSome (Some s) = true ∧ Unwrap (Some s) = .ok s) ∧
    (∀ b : Bool, IsSome (Some b) = true ∧ Unwrap (Some b) = .ok b) ∧
    (∀ r : GoStruct, IsSome (Some r) = true ∧ Unwrap (Some r) = .ok r) := by
  refine ⟨fun k => ?_, fun k => ?_, ⟨rfl, rfl⟩,
    fun n => ⟨rfl, rfl⟩, fun s => ⟨rfl, rfl⟩, fun b => ⟨rfl, rfl⟩,
    fun r => ⟨rfl, rfl⟩⟩ <;> cases k <;> exact ⟨rfl, rfl⟩

/-- C2: `Map` on an absent Option returns an absent Option carrying the
same diagnostic as the input; on a present Option it applies `f` and
feeds the result back through `Some`, so a nil-capable zero result
becomes absent with the fixed "option: value cannot be nil" diagnostic
(not any diagnostic of the input), and a non-nil result stays present. -/
theorem map_spec [GoType α] [GoType β] (o : Opt α) (f : α → β) :
    (o.non = true → Map o f = None β o.err ∧ (Map o f).err = o.err ∧
      IsNone (Map o f) = true) ∧
    (o.non = false → Map o f = Some (f o.som) ∧
      (isNil (f o.som) = true → IsNone (Map o f) = true ∧
        (Map o f).err = ErrNilValue) ∧
      (isNil (f o.som) = false → IsSome (Map o f) = true ∧
        Unwrap (Map o f) = .ok (f o.som) ∧ (Map o f).err = none)) := by
  constructor
  · intro h
    simp [Map, h, None, IsNone]
  · intro h
    refine ⟨by simp [Map, h], fun hnil => ?_, fun hnil => ?_⟩
    · simp [Map, h, Some, hnil, IsNone, None]
    · simp [Map, h, Some, hnil, IsSome, Unwrap]

/-- C2 witness: `Map` at a concrete absent input preserves that input's
diagnostic, and at a concrete present input applies the transform. -/
theorem map_spec_witness :
    (Map (None Int (some "original error")) (fun n : Int => n + 1)).err =
      some "original error" ∧
    Map (Some (42 : Int)) (fun n : Int => n + 1) = Some (43 : Int) := by
  refine ⟨((map_spec (None Int (some "original error"))
      (fun n : Int => n + 1)).1 rfl).2.1, ?_⟩
  have h := ((map_spec (Some (42 : Int)) (fun n : Int => n + 1)).2 rfl).1
  exact h

/-- C3: `FlatMap` on an absent Option returns an absent Option carrying
the input's diagnostic without invoking the transform (invocation count
zero); on a present Option it returns `f` applied to the value verbatim,
invoking `f` exactly once, with no re-classification. -/
theorem flatMap_spec [GoType α] [GoType β] (o : Opt α) (f : α → Opt β) :
    (o.non = true → FlatMap o f = None β o.err ∧ (FlatMap o f).err = o.err ∧
      IsNone (FlatMap o f) = true ∧ FlatMapCounted o f = (None β o.err, 0)) ∧
    (o.non = false → FlatMap o f = f o.som ∧
      FlatMapCounted o f = (f o.som, 1)) := by
  constructor
  · intro h
    simp [FlatMap, FlatMapCounted, h, None, IsNone]
  · intro h
    simp [FlatMap, FlatMapCounted, h]

/-- C3 witness: at a concrete absent input `FlatMap` keeps the diagnostic
and counts zero invocations; at a concrete present input it returns the
callback's Option verbatim. -/
theorem flatMap_spec_witness :
    (FlatMap (None Int (some "original error"))
      (fun _ : Int => None Int (some "other"))).err = some "original error" ∧
    FlatMap (Some (42 : Int)) (fun n : Int => None Int (some (toString n))) =
      None Int (some "42") := by
  refine ⟨((flatMap_spec (None Int (some "original error"))
      (fun _ : Int => None Int (some "other"))).1 rfl).2.1, ?_⟩
  exact ((flatMap_spec (Some (42 : Int))
      (fun n : Int => None Int (some (toString n)))).2 rfl).1

/-- C4: `Filter` passes an absent Option through with its diagnostic
preserved exactly (and unchanged as a value, given the invariant that an
absent Option's value slot holds the zero value); passes a present Option
through unchanged — diagnostic still nil — when the predicate holds; and
when the predicate fails it returns a new absent Option whose diagnostic
is exactly "option: value did not satisfy predicate". -/
theorem filter_spec [GoType α] (o : Opt α) (p : α → Bool) :
    (o.non = true → IsNone (Filter o p) = true ∧ (Filter o p).err = o.err ∧
      Error (Filter o p) = o.err ∧ (o.som = GoType.zero → Filter o p = o)) ∧
    (o.non = false →
      (p o.som = true → Filter o p = o ∧ Error (Filter o p) = none) ∧
      (p o.som = false → IsNone (Filter o p) = true ∧
        (Filter o p).err = some "option: value did not satisfy predicate")) := by
  constructor
  · intro h
    refine ⟨by simp [Filter, h, None, IsNone],
      by simp [Filter, h, None],
      by simp [Filter, h, None, Error], fun hz => ?_⟩
    simp only [Filter, h, if_pos, Bool.true_or, if_true, None]
    cases o with
    | mk non som err => simp_all
  · intro h
    constructor
    · intro hp
      have : Filter o p = o := by simp [Filter, h, hp]
      refine ⟨this, ?_⟩
      rw [this]
      simp [Error, h]
    · intro hp
      simp [Filter, h, hp, None, IsNone]

/-- C4 witness: a concrete absent input keeps its diagnostic; a concrete
present input passing the predicate is returned unchanged; a concrete
present input failing it gets the fixed rejection diagnostic. -/
theorem filter_spec_witness :
    (Filter (None Int (some "orig")) (fun n : Int => decide (0 < n))).err =
      some "orig" ∧
    Filter (Some (42 : Int)) (fun n : Int => decide (0 < n)) = Some (42 : Int) ∧
    (Filter (Some (-5 : Int)) (fun n : Int => decide (0 < n))).err =
      some "option: value did not satisfy predicate" := by
  refine ⟨((filter_spec (None Int (some "orig"))
      (fun n : Int => decide (0 < n))).1 rfl).2.1, ?_, ?_⟩
  · exact (((filter_spec (Some (42 : Int))
      (fun n : Int => decide (0 < n))).2 rfl).1 (by decide)).1
  · exact (((filter_spec (Some (-5 : Int))
      (fun n : Int => decide (0 < n))).2 rfl).2 (by decide)).2

/-- C5: `Unwrap` returns the stored value on every present Option and, on
every absent Option of any element type, aborts with the panic message
instead of returning a value (modelled as `Except.error`). -/
theorem unwrap_spec (o : Opt α) :
    (o.non = false → Unwrap o = .ok o.som) ∧
    (o.non = true → Unwrap o = .error "`Unwrap` called on `None` value") := by
  constructor <;> intro h <;> simp [Unwrap, h]

/-- C5 witness: `Unwrap` aborts on a concrete absent Option of a
pointer-like type and of a record type, and returns the value on a
concrete present Option. -/
theorem unwrap_spec_witness :
    Unwrap (None (Handle HKind.hptr) (some "e")) =
      .error "`Unwrap` called on `None` value" ∧
    Unwrap (None GoStruct (some "e")) =
      .error "`Unwrap` called on `None` value" ∧
    Unwrap (Some (42 : Int)) = .ok 42 := by
  exact ⟨(unwrap_spec (None (Handle HKind.hptr) (some "e"))).2 rfl,
    (unwrap_spec (None GoStruct (some "e"))).2 rfl,
    (unwrap_spec (Some (42 : Int))).1 rfl⟩

/-- C6: `UnwrapOrElse` returns the stored value on a present Option
without invoking the producer (invocation count zero, result independent
of the producer), and on an absent Option invokes the producer exactly
once and returns its result. -/
theorem unwrapOrElse_spec (o : Opt α) (f : Unit → α) :
    (o.non = false → UnwrapOrElse o f = o.som ∧
      UnwrapOrElseCounted o f = (o.som, 0)) ∧
    (o.non = true → UnwrapOrElse o f = f () ∧
      UnwrapOrElseCounted o f = (f (), 1)) := by
  constructor <;> intro h <;> simp [UnwrapOrElse, UnwrapOrElseCounted, h]

/-- C6 witness: at a concrete present Option the counter stays zero; at a
concrete absent Option the producer runs once and its result is
returned. -/
theorem unwrapOrElse_spec_witness :
    UnwrapOrElseCounted (Some (42 : Int)) (fun _ => 0) = (42, 0) ∧
    UnwrapOrElseCounted (None Int none) (fun _ => (21 : Int)) = (21, 1) := by
  exact ⟨((unwrapOrElse_spec (Some (42 : Int)) (fun _ => 0)).1 rfl).2,
    ((unwrapOrElse_spec (None Int none) (fun _ => (21 : Int))).2 rfl).2⟩

/-- C7: for every diagnostic `d`, including the nil one, `None` yields an
Option that is absent, not present, and whose `Error` accessor returns
exactly `d`. -/
theorem none_spec (α : Type) [GoType α] (d : GoErr) :
    IsNone (None α d) = true ∧ IsSome (None α d) = false ∧
    Error (None α d) = d := by
  refine ⟨rfl, rfl, rfl⟩

/-- C8: for every Option — in particular every one produced by `Some`,
`None`, `Filter`, `Map` or `FlatMap` — `IsSome` and `IsNone` are total
and mutually exclusive (exactly one holds), and `Error` returns the nil
diagnostic on every present Option. -/
theorem accessor_invariants (o : Opt α) :
    IsSome o = !IsNone o ∧ (IsNone o = !IsSome o) ∧
    (IsSome o = true → Error o = none) := by
  refine ⟨by simp [IsSome, IsNone], by simp [IsSome, IsNone], fun h => ?_⟩
  simp only [IsSome, Bool.not_eq_true'] at h
  simp [Error, h]

/-- C8 witness: on the concrete present Option `Some 1`, exactly one
predicate holds and the diagnostic accessor yields nil. -/
theorem accessor_invariants_witness :
    Error (Some (1 : Int)) = none := by
  exact (accessor_invariants (Some (1 : Int))).2.2 rfl

/-- C9: on the nil value of a dynamic wrapper (interface) element type,
`Some` yields a present Option whose `Unwrap` returns that nil value:
`reflect.ValueOf` on a nil interface yields the invalid kind, which falls
through `isNil` to the "not nil" default, and no interface value ever
reflects with the `Interface` kind, so that case of the switch is
unreachable from `Some`. -/
theorem some_nil_iface_spec :
    IsSome (Some GoIface.nilI) = true ∧
    Unwrap (Some GoIface.nilI) = .ok GoIface.nilI ∧
    isNil GoIface.nilI = false ∧
    (GoType.valueOf GoIface.nilI).kind = RKind.invalid ∧
    (∀ x : GoIface, ((GoType.valueOf x).kind == RKind.interfaceK) = false) := by
  refine ⟨rfl, rfl, rfl, rfl, fun x => ?_⟩
  cases x with
  | wrapHandle k h => cases k <;> rfl
  | _ => rfl

/-- C10: `Filter` is idempotent: applying it twice with the same (pure)
predicate equals applying it once; the rejection diagnostic is created
only on the first rejection and preserved by the second application. -/
theorem filter_idempotent [GoType α] (o : Opt α) (p : α → Bool) :
    Filter (Filter o p) p = Filter o p := by
  by_cases h : o.non = true
  · simp [Filter, h, None]
  · simp only [Bool.not_eq_true] at h
    by_cases hp : p o.som = true
    · simp [Filter, h, hp]
    · simp only [Bool.not_eq_true] at hp
      simp [Filter, h, hp, None]

end option
